import Mathlib

/-!
Verification development for the ghost-prompt-pal chat client.

The core logic lives in the `ChatInterface` component: a conversation
transcript (`messages`), an input draft, an in-flight flag (`isLoading`),
a per-provider API key, and the `handleSubmit` orchestrator that guards
submissions, builds the provider-specific HTTP request, classifies error
responses into human-readable messages, and appends the outcome to the
transcript.

The embedding below is a shallow functional model of that component:
- React `useState` state becomes the `ChatState` record, threaded
  explicitly.
- `Date.now()` and `new Date()` become an explicit millisecond clock
  argument (`now : Nat`); `Date.now().toString()` becomes `toString now`.
- The `fetch` call becomes an oracle argument of type `FetchResult`:
  either a success response (carrying the provider-specific reply-text
  field, `none` when the field is absent from the JSON body), an HTTP
  error status with the parsed error body, or a thrown transport failure
  carrying the thrown message.
- `handleSubmit` returns the post-resolution state together with
  `some request` when a network call was issued and `none` when the
  guard made the submission a no-op.
- JavaScript string falsiness (`!input.trim()`, `!apiKey`,
  `x || fallback`) is modelled by explicit comparison with `""`.
-/

/-- Message role: `'user' | 'assistant'`. -/
inductive Role where
  | user
  | assistant
deriving DecidableEq, Repr

/-- The `Message` interface: `{id, content, role, timestamp}`.
`timestamp` is the millisecond clock reading (`new Date()`). -/
structure Message where
  id : String
  content : String
  role : Role
  timestamp : Nat
deriving DecidableEq, Repr

/-- The `AIProvider` union type: `'openai' | 'gemini'`. -/
inductive AIProvider where
  | openai
  | gemini
deriving DecidableEq, Repr

/-- The `ProviderConfig` interface. -/
structure ProviderConfig where
  name : String
  apiUrl : String
  defaultModel : String
  keyPrefix : String
deriving DecidableEq, Repr

/-- The `providers` registry literal from `ChatInterface`. -/
def providers : AIProvider → ProviderConfig
  | .openai =>
    { name := "OpenAI"
      apiUrl := "https://api.openai.com/v1/chat/completions"
      defaultModel := "gpt-3.5-turbo"
      keyPrefix := "sk-" }
  | .gemini =>
    { name := "Google Gemini"
      apiUrl := "https://generativelanguage.googleapis.com/v1beta/models/gemini-1.5-flash-latest:generateContent"
      defaultModel := "gemini-1.5-flash-latest"
      keyPrefix := "AI" }

/-- The component state of `ChatInterface`: one field per `useState` hook
that the orchestration logic reads or writes. -/
structure ChatState where
  messages : List Message
  input : String
  isLoading : Bool
  apiKey : String
  tempApiKey : String
  showApiKeySetup : Bool
  provider : AIProvider
deriving DecidableEq, Repr

/-- The message value constructed inside `addMessage`:
`{id: Date.now().toString(), content, role, timestamp: new Date()}`. -/
def mkMessage (now : Nat) (content : String) (role : Role) : Message :=
  { id := toString now, content := content, role := role, timestamp := now }

/-- `addMessage(content, role)`: appends the freshly built message,
`setMessages(prev => [...prev, newMessage])`. -/
def addMessage (s : ChatState) (now : Nat) (content : String) (role : Role) : ChatState :=
  { s with messages := s.messages ++ [mkMessage now content role] }

/-- One `{role, content}` entry of the chat-completion `messages` array. -/
structure ChatCompletionMessage where
  role : Role
  content : String
deriving DecidableEq, Repr

/-- The JSON body sent by `handleSubmit`, one constructor per provider
branch: the chat-completion body
`{model, messages, max_tokens, temperature}` and the generate-content
body `{contents: [{parts: [{text}]}], generationConfig}` (each content
entry is its list of part texts). -/
inductive RequestBody where
  | chatCompletion (model : String) (messages : List ChatCompletionMessage)
      (maxTokens : Nat) (temperature : ℚ)
  | generateContent (contents : List (List String)) (temperature : ℚ)
      (maxOutputTokens : Nat)
deriving DecidableEq, Repr

/-- An outbound HTTP request: URL, optional `Authorization` header value,
and JSON body. -/
structure Request where
  url : String
  authorizationHeader : Option String
  body : RequestBody
deriving DecidableEq, Repr

/-- The parsed failure body `errorData.error`, i.e. the optional `code`
and `message` fields (both absent when `response.json()` failed and the
`catch` returned `{}`). -/
structure ErrorData where
  code : Option String
  message : Option String
deriving DecidableEq, Repr

/-- Outcome of the `fetch` call, as observed by `handleSubmit`:
- `success replyField`: `response.ok` with the parsed body; `replyField`
  is the provider-specific reply text
  (`data.choices[0]?.message?.content` for openai,
  `data.candidates[0]?.content?.parts[0]?.text` for gemini), `none` when
  the field is absent.
- `httpError status errorData`: `response.ok` is false.
- `transportFailure m`: the call threw; `m` is `error.message`. -/
inductive FetchResult where
  | success (replyField : Option String)
  | httpError (status : Nat) (errorData : ErrorData)
  | transportFailure (message : String)
deriving DecidableEq, Repr

/-- JavaScript `String.prototype.trim()`: drop whitespace from both ends
(written over the character list so that it evaluates by reduction). -/
def String.trimText (t : String) : String :=
  String.mk (((t.toList.dropWhile Char.isWhitespace).reverse.dropWhile
    Char.isWhitespace).reverse)

/-- Boolean test for the `success` constructor. -/
def FetchResult.isSuccess : FetchResult → Bool
  | .success _ => true
  | _ => false

/-- JavaScript `x || 'Unknown error'` on the optional provider message:
absent or empty strings fall back. -/
def orUnknownError (m : Option String) : String :=
  match m with
  | some t => if t = "" then "Unknown error" else t
  | none => "Unknown error"

/-- The openai branch of the `!response.ok` classification: the message
of the `Error` thrown for each status/code combination. -/
def openaiErrorMessage (status : Nat) (ed : ErrorData) : String :=
  if status = 429 ∧ ed.code = some "insufficient_quota" then
    "Your OpenAI account has exceeded its quota. Please check your billing details at platform.openai.com"
  else if status = 401 then
    "Invalid OpenAI API key. Please check your API key."
  else if status = 429 then
    "Rate limit exceeded. Please wait a moment and try again."
  else
    "OpenAI API Error: " ++ toString status ++ " - " ++ orUnknownError ed.message

/-- The gemini branch of the `!response.ok` classification. -/
def geminiErrorMessage (status : Nat) (ed : ErrorData) : String :=
  if status = 401 ∨ status = 403 then
    "Invalid Gemini API key. Please check your API key."
  else if status = 429 then
    "Rate limit exceeded. Please wait a moment and try again."
  else
    "Gemini API Error: " ++ toString status ++ " - " ++ orUnknownError ed.message

/-- Dispatch of the error classification on the active provider. -/
def errorMessage : AIProvider → Nat → ErrorData → String
  | .openai => openaiErrorMessage
  | .gemini => geminiErrorMessage

/-- The fixed fallback reply used when the reply-text field is missing. -/
def fallbackText : String := "Sorry, I could not generate a response."

/-- JavaScript `field || fallbackText` on the optional reply field:
absent or empty reply text yields the fallback. -/
def orFallback (field : Option String) : String :=
  match field with
  | some t => if t = "" then fallbackText else t
  | none => fallbackText

/-- The request constructed by the provider branches of `handleSubmit`:
`history` is the `messages` closure value (the transcript before the new
user message was appended) and `userMessage` is the trimmed input. -/
def buildRequest (p : AIProvider) (history : List Message)
    (userMessage : String) (apiKey : String) : Request :=
  match p with
  | .openai =>
    { url := (providers .openai).apiUrl
      authorizationHeader := some ("Bearer " ++ apiKey)
      body := .chatCompletion (providers .openai).defaultModel
        (history.map (fun m => { role := m.role, content := m.content }) ++
          [{ role := .user, content := userMessage }])
        1000 (7 / 10) }
  | .gemini =>
    { url := (providers .gemini).apiUrl ++ "?key=" ++ apiKey
      authorizationHeader := none
      body := .generateContent [[userMessage]] (7 / 10) 1000 }

/-- `handleSubmit`: guard, append the user message, clear the draft, set
the in-flight flag, issue the request, then append the assistant message
obtained from the response (reply text, classified HTTP error, or caught
transport failure) and clear the in-flight flag in `finally`.

`now1` is the clock at the user-message `addMessage`, `now2` at the
assistant-message `addMessage`. Returns the resolved state and
`some request` when a network call was issued, `none` when the guard
returned early. -/
def handleSubmit (s : ChatState) (result : FetchResult) (now1 now2 : Nat) :
    ChatState × Option Request :=
  if s.input.trimText = "" ∨ s.isLoading = true ∨ s.apiKey = "" then
    (s, none)
  else
    let userMessage := s.input.trimText
    let s1 := { addMessage s now1 userMessage .user with input := "", isLoading := true }
    let req := buildRequest s.provider s.messages userMessage s.apiKey
    let s2 :=
      match result with
      | .success replyField => addMessage s1 now2 (orFallback replyField) .assistant
      | .httpError status ed =>
          addMessage s1 now2 ("Error: " ++ errorMessage s.provider status ed) .assistant
      | .transportFailure m => addMessage s1 now2 ("Error: " ++ m) .assistant
    ({ s2 with isLoading := false }, some req)

/-- One submission attempt of a session run: the text typed into the
input box before pressing send, the fetch outcome, and the two clock
readings of the run. -/
structure SubmissionEvent where
  text : String
  result : FetchResult
  now1 : Nat
  now2 : Nat
deriving DecidableEq, Repr

/-- Type the text (`setInput`) and press send, keeping the post state. -/
def submitEvent (s : ChatState) (ev : SubmissionEvent) : ChatState :=
  (handleSubmit { s with input := ev.text } ev.result ev.now1 ev.now2).1

/-- Run a sequence of submissions left to right. -/
def runSubmissions (s : ChatState) : List SubmissionEvent → ChatState
  | [] => s
  | ev :: evs => runSubmissions (submitEvent s ev) evs

/-- The assistant text produced for a fetch outcome (the success
extraction or the caught error message with its `Error: ` prefix). -/
def assistantText (p : AIProvider) : FetchResult → String
  | .success replyField => orFallback replyField
  | .httpError status ed => "Error: " ++ errorMessage p status ed
  | .transportFailure m => "Error: " ++ m

/-- The two transcript entries an accepted submission appends: the user
message with the trimmed text, then the assistant message. -/
def submissionMessages (p : AIProvider) (ev : SubmissionEvent) : List Message :=
  [mkMessage ev.now1 ev.text.trimText .user,
   mkMessage ev.now2 (assistantText p ev.result) .assistant]

/-- The transcript entries appended by a sequence of accepted
submissions, two per submission. -/
def submissionLog (p : AIProvider) : List SubmissionEvent → List Message
  | [] => []
  | ev :: evs => submissionMessages p ev ++ submissionLog p evs

/-- An accepted submission (non-blank trimmed input, not in flight,
non-empty key) resolves to: the two transcript entries appended, the
draft cleared, the in-flight flag back to false, everything else
untouched, and the provider-specific request issued. -/
theorem handleSubmit_accepted (s : ChatState) (r : FetchResult) (t1 t2 : Nat)
    (htext : s.input.trimText ≠ "") (hload : s.isLoading = false) (hkey : s.apiKey ≠ "") :
    handleSubmit s r t1 t2 =
      ({ s with
          messages := s.messages ++
            [mkMessage t1 s.input.trimText .user,
             mkMessage t2 (assistantText s.provider r) .assistant],
          input := "", isLoading := false },
       some (buildRequest s.provider s.messages s.input.trimText s.apiKey)) := by
  cases r with
  | success f =>
      unfold handleSubmit
      rw [if_neg (by simp [htext, hload, hkey])]
      simp [addMessage, assistantText]
  | httpError st ed =>
      unfold handleSubmit
      rw [if_neg (by simp [htext, hload, hkey])]
      simp [addMessage, assistantText]
  | transportFailure m =>
      unfold handleSubmit
      rw [if_neg (by simp [htext, hload, hkey])]
      simp [addMessage, assistantText]

/-- The early-return guard of `handleSubmit`: blank trimmed input, the
in-flight flag set, or an empty key leave the state untouched and issue
no request. -/
theorem handleSubmit_guard_noop (s : ChatState) (r : FetchResult) (t1 t2 : Nat)
    (h : s.input.trimText = "" ∨ s.isLoading = true ∨ s.apiKey = "") :
    handleSubmit s r t1 t2 = (s, none) := by
  unfold handleSubmit
  rw [if_pos h]

/-- Claim C2: when the in-flight flag is already true, or the input text
is empty or whitespace-only, submit is a no-op: the state (hence the
Conversation Store) is unchanged and no network call is issued. -/
theorem submit_noop_when_inflight_or_blank (s : ChatState) (r : FetchResult) (t1 t2 : Nat)
    (h : s.isLoading = true ∨ s.input.trimText = "") :
    handleSubmit s r t1 t2 = (s, none) :=
  handleSubmit_guard_noop s r t1 t2 (h.elim (fun h' => Or.inr (Or.inl h')) Or.inl)

/-- A state that is mid-request: in-flight flag set, draft non-blank. -/
def inflightState : ChatState :=
  { messages := [], input := "second question", isLoading := true,
    apiKey := "sk-test", tempApiKey := "", showApiKeySetup := false,
    provider := .openai }

theorem submit_noop_when_inflight_or_blank_witness :
    (inflightState.isLoading = true ∨ inflightState.input.trimText = "") ∧
    handleSubmit inflightState (.success (some "Hi")) 3 4 = (inflightState, none) :=
  ⟨Or.inl rfl,
   submit_noop_when_inflight_or_blank inflightState (.success (some "Hi")) 3 4 (Or.inl rfl)⟩

/-- A state with a non-blank draft and no credential stored for the
active provider, outside the credential-setup screen. -/
def noCredentialState : ChatState :=
  { messages := [], input := "hi", isLoading := false, apiKey := "",
    tempApiKey := "", showApiKeySetup := false, provider := .openai }

/-- Claim C3 counterexample: submitting non-empty text with no stored
credential does NOT transition to the credential-setup state: the guard
returns early, `showApiKeySetup` stays false and the whole state is
unchanged. -/
theorem no_credential_submit_does_not_show_setup :
    noCredentialState.input.trimText ≠ "" ∧
    noCredentialState.apiKey = "" ∧
    noCredentialState.showApiKeySetup = false ∧
    (handleSubmit noCredentialState (.success (some "Hi")) 0 1).1.showApiKeySetup = false ∧
    (handleSubmit noCredentialState (.success (some "Hi")) 0 1).1 = noCredentialState := by
  have h := handleSubmit_guard_noop noCredentialState (.success (some "Hi")) 0 1
    (Or.inr (Or.inr rfl))
  exact ⟨by decide, rfl, rfl, by rw [h]; rfl, by rw [h]⟩

/-- Claim C3 (amended): submitting with no credential stored for the
active provider is a no-op: the state is unchanged (no message appended,
no transition) and no network call is issued. -/
theorem submit_noop_when_no_credential (s : ChatState) (r : FetchResult) (t1 t2 : Nat)
    (h : s.apiKey = "") :
    handleSubmit s r t1 t2 = (s, none) :=
  handleSubmit_guard_noop s r t1 t2 (Or.inr (Or.inr h))

theorem submit_noop_when_no_credential_witness :
    noCredentialState.apiKey = "" ∧
    handleSubmit noCredentialState (.httpError 500 ⟨none, none⟩) 7 8 = (noCredentialState, none) :=
  ⟨rfl, submit_noop_when_no_credential noCredentialState (.httpError 500 ⟨none, none⟩) 7 8 rfl⟩

/-- Two transcript entries per submission event. -/
theorem submissionLog_length (p : AIProvider) (evs : List SubmissionEvent) :
    (submissionLog p evs).length = 2 * evs.length := by
  induction evs with
  | nil => rfl
  | cons ev evs ih =>
      simp [submissionLog, submissionMessages, ih]
      ring

/-- Running a sequence of accepted submissions appends exactly the
per-event transcript entries, in order, and preserves the in-flight
flag, the key, and the provider. -/
theorem runSubmissions_spec (evs : List SubmissionEvent) :
    ∀ s : ChatState, s.isLoading = false → s.apiKey ≠ "" →
    (∀ ev ∈ evs, ev.text.trimText ≠ "") →
    (runSubmissions s evs).messages = s.messages ++ submissionLog s.provider evs ∧
    (runSubmissions s evs).isLoading = false ∧
    (runSubmissions s evs).apiKey = s.apiKey ∧
    (runSubmissions s evs).provider = s.provider := by
  induction evs with
  | nil => intro s hload hkey _; simp [runSubmissions, submissionLog, hload]
  | cons ev evs ih =>
      intro s hload hkey hall
      have htext : ev.text.trimText ≠ "" := hall ev (List.mem_cons_self ev evs)
      have hstep : submitEvent s ev =
          { s with
              messages := s.messages ++ submissionMessages s.provider ev,
              input := "", isLoading := false } := by
        unfold submitEvent
        rw [handleSubmit_accepted { s with input := ev.text } ev.result ev.now1 ev.now2
          htext hload hkey]
        simp [submissionMessages]
      have hrest := ih (submitEvent s ev)
        (by rw [hstep]) (by rw [hstep]; exact hkey)
        (fun e he => hall e (List.mem_cons_of_mem ev he))
      rw [runSubmissions, hstep]
      rw [hstep] at hrest
      simpa [submissionLog, List.append_assoc] using hrest

/-- Claim C1: for every sequence of successful submissions (non-blank
input, credential present, fetch returns success), each submission
appends exactly two transcript entries — the user message with the
submitted (trimmed) text, then the assistant message — and the prior
transcript is preserved as an unchanged prefix: the final transcript is
the old one followed by the per-event pairs, and its length grows by
exactly two per submission. -/
theorem successful_submissions_append_user_then_assistant
    (s : ChatState) (evs : List SubmissionEvent)
    (hload : s.isLoading = false) (hkey : s.apiKey ≠ "")
    (hevs : ∀ ev ∈ evs, ev.text.trimText ≠ "" ∧ ev.result.isSuccess = true) :
    (runSubmissions s evs).messages = s.messages ++ submissionLog s.provider evs ∧
    (runSubmissions s evs).messages.length = s.messages.length + 2 * evs.length := by
  have h := runSubmissions_spec evs s hload hkey (fun ev he => (hevs ev he).1)
  refine ⟨h.1, ?_⟩
  rw [h.1]
  simp [submissionLog_length]

/-- A ready state: credential stored, not in flight, empty transcript. -/
def acceptedState : ChatState :=
  { messages := [], input := "", isLoading := false, apiKey := "sk-test",
    tempApiKey := "", showApiKeySetup := false, provider := .openai }

/-- Two successful submissions, the second with a missing reply field. -/
def successRun : List SubmissionEvent :=
  [{ text := "Hello", result := .success (some "Hi there"), now1 := 1, now2 := 2 },
   { text := "  How are you?  ", result := .success none, now1 := 3, now2 := 4 }]

theorem successful_submissions_append_user_then_assistant_witness :
    acceptedState.isLoading = false ∧ acceptedState.apiKey ≠ "" ∧
    (∀ ev ∈ successRun, ev.text.trimText ≠ "" ∧ ev.result.isSuccess = true) ∧
    ((runSubmissions acceptedState successRun).messages =
        acceptedState.messages ++ submissionLog acceptedState.provider successRun ∧
      (runSubmissions acceptedState successRun).messages.length =
        acceptedState.messages.length + 2 * successRun.length) :=
  ⟨rfl, by decide, by decide,
   successful_submissions_append_user_then_assistant acceptedState successRun rfl
     (by decide) (by decide)⟩

/-- Claim C4: an accepted submission with the openai provider active
issues a chat-completion request: the secret travels in an
`Authorization: Bearer` header, and the body carries the model, the full
prior history mapped to role/content pairs with the new user message
appended last, and the fixed `max_tokens` and `temperature` values. -/
theorem openai_request_shape (s : ChatState) (r : FetchResult) (t1 t2 : Nat)
    (hp : s.provider = .openai) (htext : s.input.trimText ≠ "")
    (hload : s.isLoading = false) (hkey : s.apiKey ≠ "") :
    (handleSubmit s r t1 t2).2 = some
      { url := "https://api.openai.com/v1/chat/completions"
        authorizationHeader := some ("Bearer " ++ s.apiKey)
        body := .chatCompletion "gpt-3.5-turbo"
          (s.messages.map (fun m => { role := m.role, content := m.content }) ++
            [{ role := .user, content := s.input.trimText }])
          1000 (7 / 10) } := by
  rw [handleSubmit_accepted s r t1 t2 htext hload hkey, hp]
  rfl

/-- A state holding one completed exchange and a fresh draft. -/
def openaiHistoryState : ChatState :=
  { messages := [mkMessage 1 "Hello" .user, mkMessage 2 "Hi there" .assistant],
    input := "Second question", isLoading := false, apiKey := "sk-abc",
    tempApiKey := "", showApiKeySetup := false, provider := .openai }

theorem openai_request_shape_witness :
    openaiHistoryState.provider = .openai ∧
    openaiHistoryState.input.trimText ≠ "" ∧
    openaiHistoryState.isLoading = false ∧
    openaiHistoryState.apiKey ≠ "" ∧
    (handleSubmit openaiHistoryState (.success (some "Sure")) 5 6).2 = some
      { url := "https://api.openai.com/v1/chat/completions"
        authorizationHeader := some ("Bearer " ++ openaiHistoryState.apiKey)
        body := .chatCompletion "gpt-3.5-turbo"
          (openaiHistoryState.messages.map
              (fun m => { role := m.role, content := m.content }) ++
            [{ role := .user, content := openaiHistoryState.input.trimText }])
          1000 (7 / 10) } :=
  ⟨rfl, by decide, rfl, by decide,
   openai_request_shape openaiHistoryState (.success (some "Sure")) 5 6 rfl
     (by decide) rfl (by decide)⟩

/-- Claim C5: an accepted submission with the gemini provider active
issues a generate-content request: the body carries only the new user
text as a single content part — the prior history `s.messages` does not
appear — and the secret travels as the `key` query parameter of the URL
while no `Authorization` header is set. -/
theorem gemini_request_shape (s : ChatState) (r : FetchResult) (t1 t2 : Nat)
    (hp : s.provider = .gemini) (htext : s.input.trimText ≠ "")
    (hload : s.isLoading = false) (hkey : s.apiKey ≠ "") :
    (handleSubmit s r t1 t2).2 = some
      { url :=
          "https://generativelanguage.googleapis.com/v1beta/models/gemini-1.5-flash-latest:generateContent"
            ++ "?key=" ++ s.apiKey
        authorizationHeader := none
        body := .generateContent [[s.input.trimText]] (7 / 10) 1000 } := by
  rw [handleSubmit_accepted s r t1 t2 htext hload hkey, hp]
  rfl

/-- A gemini-provider state with prior history and a fresh draft. -/
def geminiHistoryState : ChatState :=
  { messages := [mkMessage 1 "Hola" .user, mkMessage 2 "Buenas" .assistant],
    input := "Otra", isLoading := false, apiKey := "AIzaX",
    tempApiKey := "", showApiKeySetup := false, provider := .gemini }

theorem gemini_request_shape_witness :
    geminiHistoryState.provider = .gemini ∧
    geminiHistoryState.input.trimText ≠ "" ∧
    geminiHistoryState.isLoading = false ∧
    geminiHistoryState.apiKey ≠ "" ∧
    (handleSubmit geminiHistoryState (.success (some "Hola")) 5 6).2 = some
      { url :=
          "https://generativelanguage.googleapis.com/v1beta/models/gemini-1.5-flash-latest:generateContent"
            ++ "?key=" ++ geminiHistoryState.apiKey
        authorizationHeader := none
        body := .generateContent [[geminiHistoryState.input.trimText]] (7 / 10) 1000 } :=
  ⟨rfl, by decide, rfl, by decide,
   gemini_request_shape geminiHistoryState (.success (some "Hola")) 5 6 rfl
     (by decide) rfl (by decide)⟩

/-- Claim C6: when the network call of an accepted submission resolves
with an HTTP failure status or throws a transport failure, the error is
absorbed by `handleSubmit` (which stays a total function into a resolved
state): the classified human-readable message is appended as an
assistant-role transcript entry prefixed `Error: `, the in-flight flag is
cleared, and nothing else of the session state changes. -/
theorem failed_request_becomes_assistant_error_entry
    (s : ChatState) (t1 t2 : Nat)
    (htext : s.input.trimText ≠ "") (hload : s.isLoading = false) (hkey : s.apiKey ≠ "") :
    (∀ status ed, (handleSubmit s (.httpError status ed) t1 t2).1 =
      { s with
          messages := s.messages ++
            [mkMessage t1 s.input.trimText .user,
             mkMessage t2 ("Error: " ++ errorMessage s.provider status ed) .assistant],
          input := "", isLoading := false }) ∧
    (∀ m, (handleSubmit s (.transportFailure m) t1 t2).1 =
      { s with
          messages := s.messages ++
            [mkMessage t1 s.input.trimText .user,
             mkMessage t2 ("Error: " ++ m) .assistant],
          input := "", isLoading := false }) := by
  constructor
  · intro status ed
    rw [handleSubmit_accepted s (.httpError status ed) t1 t2 htext hload hkey]
    rfl
  · intro m
    rw [handleSubmit_accepted s (.transportFailure m) t1 t2 htext hload hkey]
    rfl

theorem failed_request_becomes_assistant_error_entry_witness :
    openaiHistoryState.input.trimText ≠ "" ∧
    openaiHistoryState.isLoading = false ∧
    openaiHistoryState.apiKey ≠ "" ∧
    (handleSubmit openaiHistoryState (.transportFailure "Failed to fetch") 5 6).1 =
      { openaiHistoryState with
          messages := openaiHistoryState.messages ++
            [mkMessage 5 openaiHistoryState.input.trimText .user,
             mkMessage 6 ("Error: " ++ "Failed to fetch") .assistant],
          input := "", isLoading := false } :=
  ⟨by decide, rfl, by decide,
   (failed_request_becomes_assistant_error_entry openaiHistoryState 5 6
     (by decide) rfl (by decide)).2 "Failed to fetch"⟩

/-- Claim C7: for the openai provider, the assistant text produced for a
429 response whose error body carries code `insufficient_quota`
references quota and billing and differs from the generic rate-limit
text produced by a 429 without that code, and a 401 response yields the
invalid-credential text — `assistantText` being exactly what
`handleSubmit` appends as the assistant transcript entry. -/
theorem openai_quota_rate_limit_and_auth_messages (ed : ErrorData)
    (hcode : ed.code ≠ some "insufficient_quota") :
    assistantText .openai (.httpError 429 { code := some "insufficient_quota", message := ed.message }) =
      "Error: " ++ "Your OpenAI account has exceeded its quota. Please check your billing details at platform.openai.com" ∧
    assistantText .openai (.httpError 429 ed) =
      "Error: " ++ "Rate limit exceeded. Please wait a moment and try again." ∧
    ("Error: " ++ "Your OpenAI account has exceeded its quota. Please check your billing details at platform.openai.com") ≠
      ("Error: " ++ "Rate limit exceeded. Please wait a moment and try again.") ∧
    assistantText .openai (.httpError 401 ed) =
      "Error: " ++ "Invalid OpenAI API key. Please check your API key." := by
  refine ⟨rfl, ?_, by decide, ?_⟩
  · simp [assistantText, errorMessage, openaiErrorMessage, hcode]
  · simp [assistantText, errorMessage, openaiErrorMessage]

theorem openai_quota_rate_limit_and_auth_messages_witness :
    (({ code := none, message := none } : ErrorData).code ≠ some "insufficient_quota") ∧
    (assistantText .openai (.httpError 429 { code := some "insufficient_quota", message := none }) =
      "Error: " ++ "Your OpenAI account has exceeded its quota. Please check your billing details at platform.openai.com" ∧
    assistantText .openai (.httpError 429 { code := none, message := none }) =
      "Error: " ++ "Rate limit exceeded. Please wait a moment and try again." ∧
    ("Error: " ++ "Your OpenAI account has exceeded its quota. Please check your billing details at platform.openai.com") ≠
      ("Error: " ++ "Rate limit exceeded. Please wait a moment and try again.") ∧
    assistantText .openai (.httpError 401 { code := none, message := none }) =
      "Error: " ++ "Invalid OpenAI API key. Please check your API key.") :=
  ⟨by decide,
   openai_quota_rate_limit_and_auth_messages { code := none, message := none } (by decide)⟩

/-- Claim C8: on an HTTP-success response whose provider-specific
reply-text field is absent, the accepted submission appends the fixed
fallback text as the assistant transcript entry instead of failing. -/
theorem missing_reply_field_falls_back (s : ChatState) (t1 t2 : Nat)
    (htext : s.input.trimText ≠ "") (hload : s.isLoading = false) (hkey : s.apiKey ≠ "") :
    (handleSubmit s (.success none) t1 t2).1.messages =
      s.messages ++
        [mkMessage t1 s.input.trimText .user,
         mkMessage t2 fallbackText .assistant] := by
  rw [handleSubmit_accepted s (.success none) t1 t2 htext hload hkey]
  rfl

theorem missing_reply_field_falls_back_witness :
    openaiHistoryState.input.trimText ≠ "" ∧
    openaiHistoryState.isLoading = false ∧
    openaiHistoryState.apiKey ≠ "" ∧
    (handleSubmit openaiHistoryState (.success none) 5 6).1.messages =
      openaiHistoryState.messages ++
        [mkMessage 5 openaiHistoryState.input.trimText .user,
         mkMessage 6 fallbackText .assistant] :=
  ⟨by decide, rfl, by decide,
   missing_reply_field_falls_back openaiHistoryState 5 6 (by decide) rfl (by decide)⟩

/-- Claim C9: every issued request resolves with the in-flight flag back
to false, whatever the fetch outcome (success, HTTP error status, or
transport failure). -/
theorem inflight_flag_clears_on_resolution (s : ChatState) (r : FetchResult) (t1 t2 : Nat)
    (htext : s.input.trimText ≠ "") (hload : s.isLoading = false) (hkey : s.apiKey ≠ "") :
    (handleSubmit s r t1 t2).1.isLoading = false := by
  rw [handleSubmit_accepted s r t1 t2 htext hload hkey]

theorem inflight_flag_clears_on_resolution_witness :
    geminiHistoryState.input.trimText ≠ "" ∧
    geminiHistoryState.isLoading = false ∧
    geminiHistoryState.apiKey ≠ "" ∧
    (handleSubmit geminiHistoryState (.httpError 429 { code := none, message := none }) 5 6).1.isLoading
      = false :=
  ⟨by decide, rfl, by decide,
   inflight_flag_clears_on_resolution geminiHistoryState
     (.httpError 429 { code := none, message := none }) 5 6 (by decide) rfl (by decide)⟩

/-- A ready state whose submission resolves within one millisecond. -/
def sameMillisecondState : ChatState :=
  { messages := [], input := "hello", isLoading := false, apiKey := "sk-test",
    tempApiKey := "", showApiKeySetup := false, provider := .openai }

/-- Claim C10 failing run: `addMessage` derives the identifier from
`Date.now().toString()`, so when the user entry and the error-path
assistant entry are appended within the same clock millisecond the two
distinct stored messages receive the same identifier "5". -/
theorem message_id_collision_within_same_millisecond :
    (handleSubmit sameMillisecondState (.transportFailure "Failed to fetch") 5 5).1.messages =
      [{ id := "5", content := "hello", role := .user, timestamp := 5 },
       { id := "5", content := "Error: Failed to fetch", role := .assistant, timestamp := 5 }] ∧
    ({ id := "5", content := "hello", role := .user, timestamp := 5 } : Message) ≠
      { id := "5", content := "Error: Failed to fetch", role := .assistant, timestamp := 5 } ∧
    ¬ ((handleSubmit sameMillisecondState (.transportFailure "Failed to fetch") 5 5).1.messages.map
        Message.id).Nodup := by
  refine ⟨by decide, by decide, by decide⟩
